import Mathlib

/-!
Verification of the system-monitor backend (`src/main.rs`).

The program is a small HTTP service: a background sampler task repeatedly
sums per-core CPU usage percentages and publishes the total into a shared
`CpuInfo` cell guarded by an RwLock, while the request handler
`get_system_info` assembles a `SystemInfo` snapshot from the shared CPU
cell, a long-lived `sysinfo::System` handle (refreshed once at startup),
and per-request disk/network enumerations.

We embed the program shallowly: machine integers (`u64`, `usize`) become
`Nat` with explicit wraparound where Rust subtraction could wrap; the
`f32` usage percentages become `ℚ`; the platform (what `sysinfo` would
report at a given instant) becomes an explicit `Env` record threaded
through the functions.
-/

/-- One logical core as reported by the platform: the brand string and the
usage percentage measured for the current sampling window (`f32` in the
source, modeled as `ℚ`). -/
structure CpuCore where
  brand : String
  cpu_usage : ℚ
  deriving DecidableEq, Repr

/-- One mounted disk as reported by the platform enumeration. -/
structure DiskData where
  name : String
  total_space : Nat
  available_space : Nat
  deriving DecidableEq, Repr

/-- One network interface as reported by the platform enumeration. -/
structure NetData where
  name : String
  received : Nat
  transmitted : Nat
  deriving DecidableEq, Repr

/-- The platform state at one instant: everything the `sysinfo` crate
queries would return if invoked at that instant (memory counters, cpus,
hostname, uptime, disk and network enumerations). -/
structure Env where
  totalMemory : Nat
  availableMemory : Nat
  cpus : List CpuCore
  hostName : Option String
  uptime : Nat
  disks : List DiskData
  networks : List NetData
  deriving DecidableEq, Repr

/-- A `sysinfo::System` handle: it caches the values captured by its most
recent refresh; queries like `total_memory()` return the cached values,
not the live platform state. -/
structure SysHandle where
  total_memory : Nat
  available_memory : Nat
  cpus : List CpuCore
  deriving DecidableEq, Repr

/-- `sys.refresh_all()` against platform state `p`: the handle caches the
values of the platform as of this instant. -/
def refreshAll (p : Env) : SysHandle :=
  { total_memory := p.totalMemory
    available_memory := p.availableMemory
    cpus := p.cpus }

/-- `struct MemoryInfo { total: u64, used: u64, free: u64 }` -/
structure MemoryInfo where
  total : Nat
  used : Nat
  free : Nat
  deriving DecidableEq, Repr

/-- `struct DiskInfo { name: String, total_space: u64, available_space: u64 }` -/
structure DiskInfo where
  name : String
  total_space : Nat
  available_space : Nat
  deriving DecidableEq, Repr

/-- `struct NetworkStats { name: String, received: u64, transmitted: u64 }` -/
structure NetworkStats where
  name : String
  received : Nat
  transmitted : Nat
  deriving DecidableEq, Repr

/-- `struct CpuInfo { model: String, usage: f32 }` (usage modeled as `ℚ`). -/
structure CpuInfo where
  model : String
  usage : ℚ
  deriving DecidableEq, Repr

/-- `struct SystemInfo { ... }`: the response aggregate. -/
structure SystemInfo where
  cpu_info : CpuInfo
  num_cores : Nat
  uptime : String
  hostname : String
  memory : MemoryInfo
  disks : List DiskInfo
  network : List NetworkStats
  deriving DecidableEq, Repr

/-- `2^64`, the modulus of the Rust `u64` type. -/
def U64MOD : Nat := 18446744073709551616

/-- Rust `u64` subtraction `a - b` (wrapping semantics; for inputs below
`2^64` with `b ≤ a` it coincides with ordinary subtraction). -/
def u64Sub (a b : Nat) : Nat := (a + U64MOD - b) % U64MOD

/-- The character for a decimal digit `d < 10`. -/
def digitChar (d : Nat) : Char := Char.ofNat (48 + d)

/-- Decimal digit list of `n`, most significant first; `fuel` bounds the
recursion depth (`fuel ≥ n` is always enough). Models the Rust decimal
rendering of an unsigned integer. -/
def natDecList (fuel n : Nat) : List Char :=
  match fuel with
  | 0 => []
  | fuel + 1 => if n = 0 then [] else natDecList fuel (n / 10) ++ [digitChar (n % 10)]

/-- Decimal string of `n`, as the Rust formatter renders a `u64`. -/
def natDec (n : Nat) : String :=
  if n = 0 then ("0") else String.mk (natDecList (n + 1) n)

/-- Rust zero-padded formatting of width two: the decimal rendering of `n`, left-padded
with zeros to a minimum width of two characters. -/
def pad2 (n : Nat) : String :=
  let s := natDec n
  if 2 ≤ s.length then s else ("0") ++ s

/-- `fn format_uptime(seconds: u64) -> String` from `src/main.rs`. -/
def format_uptime (seconds : Nat) : String :=
  let days := seconds / 86400
  let hours := (seconds % 86400) / 3600
  let minutes := (seconds % 3600) / 60
  let secs := seconds % 60
  pad2 days ++ ":" ++ pad2 hours ++ ":" ++ pad2 minutes ++ ":" ++ pad2 secs

/-- The body of `async fn get_system_info`: reads the shared CPU cell
(`cpu_info`) and the long-lived `System` handle (`system`), queries the
live platform `p` for hostname, uptime, disks and networks, and assembles
the snapshot. Memory comes from the cached values of the handle; disks and
networks are re-enumerated from the live platform. -/
def get_system_info (cpu_info : CpuInfo) (system : SysHandle) (p : Env) : SystemInfo :=
  let hostname := p.hostName.getD ("Unknown")
  let uptimeStr := format_uptime p.uptime
  let num_cores := system.cpus.length
  let memory : MemoryInfo :=
    { total := system.total_memory
      used := u64Sub system.total_memory system.available_memory
      free := system.available_memory }
  let disks := p.disks.map fun d =>
    DiskInfo.mk d.name d.total_space d.available_space
  let network := p.networks.map fun n =>
    NetworkStats.mk n.name n.received n.transmitted
  { cpu_info := cpu_info
    num_cores := num_cores
    uptime := uptimeStr
    hostname := hostname
    memory := memory
    disks := disks
    network := network }

/-- An HTTP response of the handler: `web::Json(info)` responds with
status 200 and the serialized snapshot; the handler has no error path. -/
structure HttpResponse where
  status : Nat
  body : SystemInfo
  deriving DecidableEq, Repr

/-- The request handler as seen by the HTTP layer: always a 200 response
carrying the assembled snapshot. -/
def handleRequest (cpu_info : CpuInfo) (system : SysHandle) (p : Env) : HttpResponse :=
  { status := 200, body := get_system_info cpu_info system p }

/-- Startup initialization of the shared CPU cell (`main`, lines 110-116):
model is the brand of the first detected processor, or "Unknown" if none;
usage starts at 0.0. -/
def initCpuInfo (sys : SysHandle) : CpuInfo :=
  { model := (sys.cpus.head?.map CpuCore.brand).getD ("Unknown")
    usage := 0 }

/-- Process startup (`main`, lines 107-117): refresh a fresh `System`
handle against the boot-time platform state `p`, then build the initial
CPU cell from it. Returns the shared state `(system, cpu_info)`. -/
def mainInit (p : Env) : SysHandle × CpuInfo :=
  let sys := refreshAll p
  (sys, initCpuInfo sys)

/-- The total of one sampler cycle (`main`, lines 128-133): fold over the
refreshed cores, accumulating `total_usage += cpu.cpu_usage()`. -/
def samplerCycleTotal (cores : List CpuCore) : ℚ :=
  cores.foldl (fun acc c => acc + c.cpu_usage) 0

/-- The publication step of the sampler (`main`, lines 137-138): under the
write lock, overwrite only the `usage` field with the new total. -/
def samplerWrite (c : CpuInfo) (total : ℚ) : CpuInfo :=
  { c with usage := total }

/-- One full sampler cycle acting on the shared cell: measure the cores
and publish the summed total. -/
def samplerCycle (c : CpuInfo) (cores : List CpuCore) : CpuInfo :=
  samplerWrite c (samplerCycleTotal cores)

/-- An event at the shared CPU cell. The write of the total by the sampler
happens under the exclusive write lock, so it is one atomic transition;
a clone by a reader happens under the read lock, so it observes the
full current value of the cell. `write cores` is a completed sampler cycle over the
measured `cores`; `read v` is an aggregator observing usage `v`. -/
inductive CellEvent
  | write (cores : List CpuCore)
  | read (v : ℚ)
  deriving DecidableEq, Repr

/-- Validity of an event trace at the CPU cell starting from usage `cur`:
each write replaces the whole value with the total of its cycle, each read
returns exactly the current value (RwLock discipline: no torn reads). -/
def validFrom (cur : ℚ) : List CellEvent → Prop
  | [] => True
  | CellEvent.write cores :: es => validFrom (samplerCycleTotal cores) es
  | CellEvent.read v :: es => v = cur ∧ validFrom cur es

instance (cur : ℚ) (es : List CellEvent) : Decidable (validFrom cur es) := by
  induction es generalizing cur with
  | nil => exact isTrue trivial
  | cons e es ih =>
    cases e with
    | write cores => exact ih _
    | read v => haveI := ih cur; exact instDecidableAnd

/-- The usage values observed by reads in a trace. -/
def readsOf : List CellEvent → List ℚ
  | [] => []
  | CellEvent.write _ :: es => readsOf es
  | CellEvent.read v :: es => v :: readsOf es

/-- The completed sampler cycles (their measured cores) in a trace. -/
def writesOf : List CellEvent → List (List CpuCore)
  | [] => []
  | CellEvent.write cores :: es => cores :: writesOf es
  | CellEvent.read _ :: es => writesOf es

/-- The abstract operations of `get_system_info`, in the order the source
performs them. The two `.read().await` guards are bound to local
variables and therefore dropped only when the function scope ends
(in reverse declaration order), after the response value is built. -/
inductive HandlerOp
  | acquireCpuRead
  | acquireSysRead
  | queryHostname
  | queryUptime
  | readNumCores
  | readMemory
  | enumDisks
  | enumNetworks
  | cloneCpu
  | buildResponse
  | releaseSysRead
  | releaseCpuRead
  deriving DecidableEq, BEq, Repr

/-- The operation sequence of one `get_system_info` invocation, transcribed
from `src/main.rs` lines 60-103 (guard drops at end of scope). -/
def handlerOps : List HandlerOp :=
  [HandlerOp.acquireCpuRead, HandlerOp.acquireSysRead,
   HandlerOp.queryHostname, HandlerOp.queryUptime, HandlerOp.readNumCores,
   HandlerOp.readMemory, HandlerOp.enumDisks, HandlerOp.enumNetworks,
   HandlerOp.cloneCpu, HandlerOp.buildResponse,
   HandlerOp.releaseSysRead, HandlerOp.releaseCpuRead]

/-- Index of an operation in the handler sequence. -/
def opIndex (o : HandlerOp) : Nat := handlerOps.indexOf o

theorem natDecList_length_pos (fuel n : Nat) (hn : n ≠ 0) (hf : fuel ≠ 0) :
    1 ≤ (natDecList fuel n).length := by
  cases fuel with
  | zero => exact absurd rfl hf
  | succ f => simp [natDecList, hn]

theorem natDecList_length_ge3 (fuel n : Nat) (hn : 100 ≤ n) (hf : 3 ≤ fuel) :
    3 ≤ (natDecList fuel n).length := by
  obtain ⟨f1, rfl⟩ : ∃ f1, fuel = f1 + 3 := ⟨fuel - 3, by omega⟩
  have h1 : n ≠ 0 := by omega
  have h2 : n / 10 ≠ 0 := by omega
  have h3 : n / 10 / 10 ≠ 0 := by omega
  simp [natDecList, h1, h2, h3]

theorem length_string_mk (l : List Char) : (String.mk l).length = l.length := rfl

theorem natDec_length_ge3 (n : Nat) (hn : 100 ≤ n) : 3 ≤ (natDec n).length := by
  have h0 : n ≠ 0 := by omega
  simp only [natDec, h0, if_false, length_string_mk]
  exact natDecList_length_ge3 (n + 1) n hn (by omega)

theorem pad2_length_ge3 (n : Nat) (hn : 100 ≤ n) : 3 ≤ (pad2 n).length := by
  have h := natDec_length_ge3 n hn
  simp only [pad2]
  rw [if_pos (by omega)]
  exact h

theorem pad2_length_two : ∀ n, n < 100 → (pad2 n).length = 2 := by decide

theorem format_uptime_length (S : Nat) :
    (format_uptime S).length = (pad2 (S / 86400)).length + 9 := by
  have h1 := pad2_length_two (S % 86400 / 3600) (by omega)
  have h2 := pad2_length_two (S % 3600 / 60) (by omega)
  have h3 := pad2_length_two (S % 60) (by omega)
  have hc : (":" : String).length = 1 := rfl
  simp only [format_uptime, String.length_append, h1, h2, h3, hc]

theorem foldl_usage_eq (l : List CpuCore) : ∀ a : ℚ,
    l.foldl (fun acc c => acc + c.cpu_usage) a = a + (l.map CpuCore.cpu_usage).sum := by
  induction l with
  | nil => intro a; simp
  | cons c l ih => intro a; simp [ih, add_assoc]

theorem samplerCycleTotal_eq_sum (cores : List CpuCore) :
    samplerCycleTotal cores = (cores.map CpuCore.cpu_usage).sum := by
  simpa [samplerCycleTotal] using foldl_usage_eq cores 0

theorem validFrom_reads_mem : ∀ (es : List CellEvent) (cur : ℚ), validFrom cur es →
    ∀ v ∈ readsOf es, v = cur ∨
      ∃ cores, cores ∈ writesOf es ∧ v = samplerCycleTotal cores := by
  intro es
  induction es with
  | nil => intro cur _ v hv; simp [readsOf] at hv
  | cons e es ih =>
    intro cur hval v hv
    cases e with
    | write cores =>
      simp only [readsOf] at hv
      rcases ih _ hval v hv with h | ⟨cs, hcs, hveq⟩
      · exact Or.inr ⟨cores, by simp [writesOf], h⟩
      · exact Or.inr ⟨cs, by simp [writesOf, hcs], hveq⟩
    | read r =>
      simp only [readsOf] at hv
      rcases hval with ⟨hr, hval⟩
      rcases List.mem_cons.mp hv with rfl | hv
      · exact Or.inl hr
      · rcases ih _ hval v hv with h | ⟨cs, hcs, hveq⟩
        · exact Or.inl h
        · exact Or.inr ⟨cs, by simp [writesOf, hcs], hveq⟩

theorem foldl_samplerCycle_model (cycles : List (List CpuCore)) : ∀ c : CpuInfo,
    (cycles.foldl samplerCycle c).model = c.model := by
  induction cycles with
  | nil => intro c; rfl
  | cons x xs ih => intro c; rw [List.foldl_cons, ih]; rfl

/-- C1 (amended): the memory fields of the snapshot are taken from the
shared System handle refreshed once at process startup, so they reflect
the platform as of startup, not the instant of the request; hostname,
uptime, disks and networks are freshly queried from the request-time
platform. -/
theorem C1_memory_reflects_startup_refresh (cpu : CpuInfo) (p q : Env) :
    (get_system_info cpu (refreshAll p) q).memory.total = p.totalMemory ∧
    (get_system_info cpu (refreshAll p) q).memory.free = p.availableMemory ∧
    (get_system_info cpu (refreshAll p) q).memory.used
        = u64Sub p.totalMemory p.availableMemory ∧
    (get_system_info cpu (refreshAll p) q).hostname = q.hostName.getD ("Unknown") ∧
    (get_system_info cpu (refreshAll p) q).uptime = format_uptime q.uptime ∧
    (get_system_info cpu (refreshAll p) q).disks
        = q.disks.map (fun d => DiskInfo.mk d.name d.total_space d.available_space) ∧
    (get_system_info cpu (refreshAll p) q).network
        = q.networks.map (fun n => NetworkStats.mk n.name n.received n.transmitted) :=
  ⟨rfl, rfl, rfl, rfl, rfl, rfl, rfl⟩

/-- C1 (counterexample): with startup platform memory 1000 and
request-time platform memory 2000, the snapshot reports 1000, not the
value at the instant of the request — the memory fields are cached at
startup, contradicting the claim. -/
theorem C1_counterexample :
    (get_system_info ⟨"m", 0⟩ (refreshAll ⟨1000, 400, [], none, 0, [], []⟩)
        ⟨2000, 500, [], none, 0, [], []⟩).memory.total = 1000 ∧
    (⟨2000, 500, [], none, 0, [], []⟩ : Env).totalMemory = 2000 ∧
    ¬ (get_system_info ⟨"m", 0⟩ (refreshAll ⟨1000, 400, [], none, 0, [], []⟩)
        ⟨2000, 500, [], none, 0, [], []⟩).memory.total
      = (⟨2000, 500, [], none, 0, [], []⟩ : Env).totalMemory := by
  refine ⟨rfl, rfl, by decide⟩

/-- C2: format_uptime decomposes the seconds count by day/hour/minute
moduli into four colon-separated two-digit-padded fields, and the three
concrete examples evaluate as the claim states. -/
theorem C2_format_uptime_decomposition :
    (∀ S : Nat, ∃ d h m s, S = ((d * 24 + h) * 60 + m) * 60 + s ∧
      h < 24 ∧ m < 60 ∧ s < 60 ∧
      format_uptime S = pad2 d ++ ":" ++ pad2 h ++ ":" ++ pad2 m ++ ":" ++ pad2 s) ∧
    format_uptime 93784 = "01:02:03:04" ∧
    format_uptime 0 = "00:00:00:00" ∧
    format_uptime 59 = "00:00:00:59" := by
  refine ⟨fun S => ⟨S / 86400, S % 86400 / 3600, S % 3600 / 60, S % 60,
    by omega, by omega, by omega, by omega, rfl⟩, by decide, by decide, by decide⟩

/-- C3: under the precondition that the platform reports available ≤ total
(as u64 values), the constructed MemoryInfo satisfies used = total − free
and used + free = total, and the u64 subtraction does not wrap around. -/
theorem C3_memory_used_eq_total_sub_free (cpu : CpuInfo) (sys : SysHandle) (p : Env)
    (h1 : sys.available_memory ≤ sys.total_memory) (h2 : sys.total_memory < U64MOD) :
    (get_system_info cpu sys p).memory.used
        = (get_system_info cpu sys p).memory.total - (get_system_info cpu sys p).memory.free ∧
    (get_system_info cpu sys p).memory.used + (get_system_info cpu sys p).memory.free
        = (get_system_info cpu sys p).memory.total ∧
    u64Sub sys.total_memory sys.available_memory
        = sys.total_memory - sys.available_memory := by
  have key : u64Sub sys.total_memory sys.available_memory
      = sys.total_memory - sys.available_memory := by
    unfold u64Sub; unfold U64MOD at h2 ⊢; omega
  refine ⟨?_, ?_, key⟩
  · show u64Sub sys.total_memory sys.available_memory
        = sys.total_memory - sys.available_memory
    exact key
  · show u64Sub sys.total_memory sys.available_memory + sys.available_memory
        = sys.total_memory
    rw [key]; omega

theorem C3_witness :
    (get_system_info ⟨"m", 0⟩ ⟨1000, 400, []⟩ ⟨0, 0, [], none, 0, [], []⟩).memory.used
        = (get_system_info ⟨"m", 0⟩ ⟨1000, 400, []⟩ ⟨0, 0, [], none, 0, [], []⟩).memory.total
          - (get_system_info ⟨"m", 0⟩ ⟨1000, 400, []⟩ ⟨0, 0, [], none, 0, [], []⟩).memory.free ∧
    (get_system_info ⟨"m", 0⟩ ⟨1000, 400, []⟩ ⟨0, 0, [], none, 0, [], []⟩).memory.used
        + (get_system_info ⟨"m", 0⟩ ⟨1000, 400, []⟩ ⟨0, 0, [], none, 0, [], []⟩).memory.free
        = (get_system_info ⟨"m", 0⟩ ⟨1000, 400, []⟩ ⟨0, 0, [], none, 0, [], []⟩).memory.total ∧
    u64Sub 1000 400 = 1000 - 400 :=
  C3_memory_used_eq_total_sub_free ⟨"m", 0⟩ ⟨1000, 400, []⟩ ⟨0, 0, [], none, 0, [], []⟩
    (by norm_num) (by norm_num [U64MOD])

/-- C4: each sampler cycle publishes exactly the sum (not the average) of
the per-core usage percentages of that cycle; if each per-core percentage
lies in [0, 100], the published usage is non-negative and at most
num_cores * 100. -/
theorem C4_usage_is_sum_of_cores (c0 : CpuInfo) :
    (∀ cores, (samplerCycle c0 cores).usage = samplerCycleTotal cores) ∧
    (∀ cores, samplerCycleTotal cores = (cores.map CpuCore.cpu_usage).sum) ∧
    (∀ cores : List CpuCore, (∀ c ∈ cores, 0 ≤ c.cpu_usage ∧ c.cpu_usage ≤ 100) →
      0 ≤ samplerCycleTotal cores ∧
        samplerCycleTotal cores ≤ (cores.length : ℚ) * 100) := by
  refine ⟨fun cores => rfl, samplerCycleTotal_eq_sum, fun cores h => ?_⟩
  rw [samplerCycleTotal_eq_sum]
  constructor
  · refine List.sum_nonneg ?_
    intro x hx
    rcases List.mem_map.mp hx with ⟨c, hc, rfl⟩
    exact (h c hc).1
  · have hb := List.sum_le_card_nsmul (cores.map CpuCore.cpu_usage) 100 ?_
    · simpa [List.length_map, nsmul_eq_mul] using hb
    · intro x hx
      rcases List.mem_map.mp hx with ⟨c, hc, rfl⟩
      exact (h c hc).2

theorem C4_witness :
    0 ≤ samplerCycleTotal [⟨"a", 10⟩, ⟨"b", 20⟩] ∧
    samplerCycleTotal [⟨"a", 10⟩, ⟨"b", 20⟩]
      ≤ (([⟨"a", 10⟩, ⟨"b", 20⟩] : List CpuCore).length : ℚ) * 100 :=
  (C4_usage_is_sum_of_cores ⟨"m", 0⟩).2.2 [⟨"a", 10⟩, ⟨"b", 20⟩]
    (by intro c hc
        simp only [List.mem_cons, List.not_mem_nil, or_false] at hc
        rcases hc with rfl | rfl <;> norm_num)

/-- C5: under the RwLock discipline (writes atomic under the exclusive
lock), every usage value observed by a reader in a valid trace equals
either the initial value 0 or the total published by one completed
sampler cycle in that trace — never a mix of two writes. -/
theorem C5_no_torn_reads (sys : SysHandle) (es : List CellEvent)
    (hv : validFrom (initCpuInfo sys).usage es) :
    (initCpuInfo sys).usage = 0 ∧
    ∀ v ∈ readsOf es, v = 0 ∨
      ∃ cores, cores ∈ writesOf es ∧ v = samplerCycleTotal cores := by
  refine ⟨rfl, fun v hv2 => ?_⟩
  rcases validFrom_reads_mem es _ hv v hv2 with h | h
  · exact Or.inl h
  · exact Or.inr h

theorem C5_witness :
    (initCpuInfo ⟨0, 0, []⟩).usage = 0 ∧
    ∀ v ∈ readsOf [CellEvent.write [⟨"x", 50⟩], CellEvent.read 50], v = 0 ∨
      ∃ cores, cores ∈ writesOf [CellEvent.write [⟨"x", 50⟩], CellEvent.read 50] ∧
        v = samplerCycleTotal cores :=
  C5_no_torn_reads ⟨0, 0, []⟩ [CellEvent.write [⟨"x", 50⟩], CellEvent.read 50]
    (by simp [validFrom, samplerCycleTotal, initCpuInfo])

/-- C6 (counterexample): in the operation order of get_system_info the
read lock on the CpuReading cell is NOT released before the memory read,
and the clone does NOT happen before the memory read either — the guard
lives to the end of the function scope. -/
theorem C6_counterexample :
    ¬ (opIndex HandlerOp.releaseCpuRead < opIndex HandlerOp.readMemory) ∧
    ¬ (opIndex HandlerOp.cloneCpu < opIndex HandlerOp.readMemory) := by decide

/-- C6 (amended): the read lock on the CpuReading cell is acquired at the
start of the handler and held across the memory read and the disk and
network enumerations; the value is cloned after those queries, and the
lock is released only when the handler returns, after the response value
is built. -/
theorem C6_lock_held_across_queries :
    opIndex HandlerOp.acquireCpuRead < opIndex HandlerOp.readMemory ∧
    opIndex HandlerOp.readMemory < opIndex HandlerOp.releaseCpuRead ∧
    opIndex HandlerOp.enumDisks < opIndex HandlerOp.releaseCpuRead ∧
    opIndex HandlerOp.enumNetworks < opIndex HandlerOp.releaseCpuRead ∧
    opIndex HandlerOp.enumNetworks < opIndex HandlerOp.cloneCpu ∧
    opIndex HandlerOp.cloneCpu < opIndex HandlerOp.releaseCpuRead ∧
    opIndex HandlerOp.buildResponse < opIndex HandlerOp.releaseCpuRead := by decide

/-- C7: the handler always responds 200 with the fully assembled snapshot
and has no error path; when the platform cannot determine a hostname, the
hostname field is exactly "Unknown", and otherwise it is the reported
hostname. -/
theorem C7_always_200_and_hostname_default (cpu : CpuInfo) (sys : SysHandle) (p : Env) :
    (handleRequest cpu sys p).status = 200 ∧
    (handleRequest cpu sys p).body = get_system_info cpu sys p ∧
    (p.hostName = none → (handleRequest cpu sys p).body.hostname = "Unknown") ∧
    (∀ hn, p.hostName = some hn → (handleRequest cpu sys p).body.hostname = hn) := by
  refine ⟨rfl, rfl, fun h => ?_, fun hn h => ?_⟩
  · show p.hostName.getD ("Unknown") = "Unknown"
    rw [h]; rfl
  · show p.hostName.getD ("Unknown") = hn
    rw [h]; rfl

theorem C7_witness :
    (handleRequest ⟨"m", 0⟩ ⟨0, 0, []⟩ ⟨0, 0, [], none, 0, [], []⟩).status = 200 ∧
    (handleRequest ⟨"m", 0⟩ ⟨0, 0, []⟩ ⟨0, 0, [], none, 0, [], []⟩).body.hostname
      = "Unknown" ∧
    (handleRequest ⟨"m", 0⟩ ⟨0, 0, []⟩ ⟨0, 0, [], some "h1", 0, [], []⟩).body.hostname
      = "h1" :=
  ⟨(C7_always_200_and_hostname_default ⟨"m", 0⟩ ⟨0, 0, []⟩ ⟨0, 0, [], none, 0, [], []⟩).1,
   (C7_always_200_and_hostname_default ⟨"m", 0⟩ ⟨0, 0, []⟩
      ⟨0, 0, [], none, 0, [], []⟩).2.2.1 rfl,
   (C7_always_200_and_hostname_default ⟨"m", 0⟩ ⟨0, 0, []⟩
      ⟨0, 0, [], some "h1", 0, [], []⟩).2.2.2 ("h1") rfl⟩

/-- C8: at startup the shared CpuReading is initialized with usage 0 and
model equal to the brand of the first detected processor, or "Unknown" if
none is detected; a request served with the initial cell reports usage
exactly 0. -/
theorem C8_startup_cell_init (p q : Env) :
    (mainInit p).2.usage = 0 ∧
    (p.cpus = [] → (mainInit p).2.model = "Unknown") ∧
    (∀ c cs, p.cpus = c :: cs → (mainInit p).2.model = c.brand) ∧
    (get_system_info (mainInit p).2 (mainInit p).1 q).cpu_info.usage = 0 := by
  refine ⟨rfl, fun h => ?_, fun c cs h => ?_, rfl⟩
  · simp [mainInit, initCpuInfo, refreshAll, h]
  · simp [mainInit, initCpuInfo, refreshAll, h]

theorem C8_witness :
    (mainInit ⟨0, 0, [], none, 0, [], []⟩).2.model = "Unknown" ∧
    (mainInit ⟨0, 0, [⟨"brandX", 0⟩], none, 0, [], []⟩).2.model = "brandX" ∧
    (mainInit ⟨0, 0, [], none, 0, [], []⟩).2.usage = 0 :=
  ⟨(C8_startup_cell_init ⟨0, 0, [], none, 0, [], []⟩
      ⟨0, 0, [], none, 0, [], []⟩).2.1 rfl,
   (C8_startup_cell_init ⟨0, 0, [⟨"brandX", 0⟩], none, 0, [], []⟩
      ⟨0, 0, [], none, 0, [], []⟩).2.2.1 ⟨"brandX", 0⟩ [] rfl,
   (C8_startup_cell_init ⟨0, 0, [], none, 0, [], []⟩
      ⟨0, 0, [], none, 0, [], []⟩).1⟩

/-- C9: the publication step of the sampler overwrites only the usage
field; after any number of sampler cycles the model string is unchanged,
so every request returns the model fixed at process start. -/
theorem C9_model_fixed_across_cycles (c : CpuInfo) (t : ℚ)
    (cycles : List (List CpuCore)) (cpu0 : CpuInfo) (sys : SysHandle) (q : Env) :
    (samplerWrite c t).model = c.model ∧
    (cycles.foldl samplerCycle cpu0).model = cpu0.model ∧
    (get_system_info (cycles.foldl samplerCycle cpu0) sys q).cpu_info.model
      = cpu0.model := by
  refine ⟨rfl, foldl_samplerCycle_model cycles cpu0, ?_⟩
  show (cycles.foldl samplerCycle cpu0).model = cpu0.model
  exact foldl_samplerCycle_model cycles cpu0

/-- C10: for every input the hours, minutes and seconds fields lie in
[0,24), [0,60), [0,60) and render to exactly two characters, while the
days field is unbounded: from 100 days (8640000 seconds) upward the
output is at least 12 characters, exceeding the eleven-character
DD:HH:MM:SS shape. -/
theorem C10_field_ranges_and_days_growth :
    (∀ S : Nat, S % 86400 / 3600 < 24 ∧ S % 3600 / 60 < 60 ∧ S % 60 < 60 ∧
      (pad2 (S % 86400 / 3600)).length = 2 ∧ (pad2 (S % 3600 / 60)).length = 2 ∧
      (pad2 (S % 60)).length = 2) ∧
    (∀ S : Nat, 8640000 ≤ S → 12 ≤ (format_uptime S).length) := by
  constructor
  · intro S
    exact ⟨by omega, by omega, by omega, pad2_length_two _ (by omega),
      pad2_length_two _ (by omega), pad2_length_two _ (by omega)⟩
  · intro S hS
    have hd : 100 ≤ S / 86400 := by omega
    have h3 := pad2_length_ge3 (S / 86400) hd
    rw [format_uptime_length]
    omega

theorem C10_witness : 12 ≤ (format_uptime 8640000).length :=
  C10_field_ranges_and_days_growth.2 8640000 (by norm_num)
